import Mathlib

/-!
Shallow embedding of `src/pocket_to_linkwarden.py`, the one-file Pocket CSV to
Netscape-bookmark-HTML converter, together with theorems settling the frozen
claims about it.

Modelling conventions:
- The CSV file is taken at the level `csv.DictReader` sees it: a list of
  records, each a list of string fields (CSV lexing itself is out of scope).
  The first record is the header (`reader.fieldnames`); an empty record models
  a blank line, which `DictReader` skips when yielding data rows.
- A Python `str`-or-`None` value is `Option String` (`none` is Python `None`).
- Python exceptions are the inductive `Pocket.PyExn`; code that can raise
  returns `Except PyExn _`. The outer `try/except` of the source is the
  `Pocket.convert` wrapper over `Pocket.runBody`.
- File writes are collected in order in `ConvState.output`; the two or three
  `htmlfile.write` calls that the source issues for one bookmark row always
  form one output line, and are modelled as the single string they concatenate
  to; every other `write` call passes a full line already.
- `print` calls are collected in order in `ConvState.printed` (one entry per
  `print`, holding the printed text without the trailing newline).
-/

namespace Pocket

/-- Python exception classes that can be raised inside the converter. -/
inductive PyExn where
  | fileNotFound
  | typeError
  | valueError
  | overflowError
  | attributeError
  | osError
deriving DecidableEq, Repr

/-- The double-quote character. -/
def quotChar : Char := Char.ofNat 34

/-- The apostrophe character. -/
def aposChar : Char := Char.ofNat 39

/-- Image of one character under Python `html.escape(s, quote=True)`.
The Python function performs five sequential whole-string `replace` calls
(`&` first); since no replacement text contains a character replaced later,
that is equivalent to this per-character map. -/
def escChar (c : Char) : String :=
  if c = '&' then "&amp;"
  else if c = '<' then "&lt;"
  else if c = '>' then "&gt;"
  else if c = quotChar then "&quot;"
  else if c = aposChar then "&#x27;"
  else String.singleton c

/-- Character-list version of `html.escape`. -/
def escList : List Char → List Char
  | [] => []
  | c :: cs => (escChar c).data ++ escList cs

/-- Python `html.escape(s, quote=True)` as used on lines 53, 58 and 70 of the
source. -/
def htmlEscape (s : String) : String := String.mk (escList s.data)

/-- Truthiness of a Python `str`-or-`None` value: `None` and the empty string
are falsy. -/
def pyTruthy (v : Option String) : Bool :=
  match v with
  | none => false
  | some s => !s.isEmpty

/-- Python `str()` of a `str`-or-`None` value, as an f-string renders it. -/
def pyStr (v : Option String) : String :=
  match v with
  | none => "None"
  | some s => s

/-- Whitespace characters stripped by Python `float(str)`. -/
def isPySpace (c : Char) : Bool :=
  c == ' ' || c == Char.ofNat 9 || c == Char.ofNat 10 || c == Char.ofNat 13 ||
    c == Char.ofNat 11 || c == Char.ofNat 12

/-- Strip leading and trailing `float()`-style whitespace. -/
def stripPySpaces (l : List Char) : List Char :=
  ((l.dropWhile isPySpace).reverse.dropWhile isPySpace).reverse

/-- Numeric value of a digit string. -/
def digitsToNat (l : List Char) : Nat :=
  l.foldl (fun a c => 10 * a + (c.toNat - 48)) 0

/-- One digit group of a Python float literal: a run of ASCII digits in
which a single underscore may stand between two digits (`1_0` is the digits
`10`; a misplaced underscore ends the group so that the caller rejects the
leftover). Returns the digits with underscores removed, and the rest. -/
def spanDigitsU : List Char → List Char × List Char
  | [] => ([], [])
  | c :: '_' :: d :: r2 =>
    if c.isDigit then
      if d.isDigit then
        let (ds, r) := spanDigitsU (d :: r2)
        (c :: ds, r)
      else ([c], '_' :: d :: r2)
    else ([], c :: '_' :: d :: r2)
  | c :: rest =>
    if c.isDigit then
      let (ds, r) := spanDigitsU rest
      (c :: ds, r)
    else ([], c :: rest)

/-- Floor of the base-two logarithm, by fuelled structural recursion: exact
whenever the fuel is at least the bit length of the argument, and callers
pass a fuel of at least the argument itself, which always suffices. -/
def log2Fuel : Nat → Nat → Nat
  | 0, _ => 0
  | f + 1, n => if n ≤ 1 then 0 else log2Fuel f (n / 2) + 1

/-- Round the nonnegative rational `a / b` (with `b > 0`) to the nearest
integer, ties to even — the IEEE-754 rounding used by binary64. -/
def roundNearestEven (a b : Nat) : Nat :=
  let q := a / b
  let r := a % b
  if 2 * r < b then q
  else if b < 2 * r then q + 1
  else if q % 2 = 0 then q else q + 1

/-- Exact model of `int(float_value)` for the binary64 float nearest to the
nonnegative rational `num / den` (with `den > 0`): round the rational to a
53-bit significand times a power of two with ties to even, return `none`
when the rounding overflows past the largest finite binary64 (Python
`float(s)` yields `inf` there and `int()` then raises `OverflowError`), and
otherwise truncate the rounded value toward zero. Values below one half
round to a float below one, so they truncate to zero without needing the
subnormal details; a floored exponent of at least 1024 (a value of at least
`2 ^ 1024`) overflows outright. -/
def roundFloatInt (num den : Nat) : Option Nat :=
  if num = 0 then some 0
  else if num < den then
    if 2 * num < den then some 0
    else
      let s := roundNearestEven (num * 2 ^ 53) den
      if s = 2 ^ 53 then some 1 else some 0
  else
    let e := log2Fuel num (num / den)
    if 1024 ≤ e then none
    else
    let a := if e ≤ 52 then num * 2 ^ (52 - e) else num
    let b := if e ≤ 52 then den else den * 2 ^ (e - 52)
    let s := roundNearestEven a b
    let (s2, e2) := if s = 2 ^ 53 then (2 ^ 52, e + 1) else (s, e)
    if 1023 < e2 then none
    else if 52 ≤ e2 then some (s2 * 2 ^ (e2 - 52)) else some (s2 / 2 ^ (52 - e2))

/-- Model of Python `int(float(s))` (source line 64). `float(s)` strips
whitespace, accepts an optional sign and then either `inf`/`infinity`/`nan`
(case-insensitively) or a decimal literal — digit groups with optional
single underscores between digits, optional fraction and exponent; anything
else raises `ValueError`. The literal's exact rational value is rounded to
the nearest binary64 (ties to even); a literal whose binary64 value is
infinite (such as `inf` itself or `1e400`) makes `int()` raise
`OverflowError`, a NaN makes it raise `ValueError`, and a finite value is
truncated toward zero. Non-ASCII digits and non-ASCII whitespace, which
CPython also normalises, are not modelled. -/
def pyIntFloat (s : String) : Except PyExn Int :=
  let cs0 := stripPySpaces s.data
  let sgn : Int := match cs0 with
    | '-' :: _ => -1
    | _ => 1
  let cs := match cs0 with
    | '+' :: t => t
    | '-' :: t => t
    | _ => cs0
  let low := cs.map Char.toLower
  if low = "inf".data ∨ low = "infinity".data then .error .overflowError
  else if low = "nan".data then .error .valueError
  else
    let (ip, r1) := spanDigitsU cs
    let (fp, r2) := match r1 with
      | '.' :: t => spanDigitsU t
      | _ => (([] : List Char), r1)
    if ip = [] ∧ fp = [] then .error .valueError
    else
      let m := digitsToNat (ip ++ fp)
      let fi : Int := Int.ofNat fp.length
      let finish : Int → Except PyExn Int := fun ex =>
        let nd : Nat × Nat :=
          if fi ≤ ex then (m * 10 ^ (ex - fi).toNat, 1) else (m, 10 ^ (fi - ex).toNat)
        match roundFloatInt nd.1 nd.2 with
        | none => .error .overflowError
        | some k => .ok (sgn * Int.ofNat k)
      match r2 with
      | [] => finish 0
      | c :: t =>
        if c == 'e' || c == 'E' then
          let esgn : Int := match t with
            | '-' :: _ => -1
            | _ => 1
          let t2 := match t with
            | '+' :: u => u
            | '-' :: u => u
            | _ => t
          let (ed, t3) := spanDigitsU t2
          if ed = [] ∨ t3 ≠ [] then .error .valueError
          else finish (esgn * Int.ofNat (digitsToNat ed))
        else .error .valueError

/-- Index of the last occurrence of a column name in the header.
`csv.DictReader` builds `dict(zip(fieldnames, row))` and then fills unpaired
field names with `restval = None`, so a duplicated column name keeps the value
belonging to its last occurrence. -/
def lastIdx : List String → String → Option Nat
  | [], _ => none
  | a :: t, c =>
    match lastIdx t c with
    | some i => some (i + 1)
    | none => if a = c then some 0 else none

/-- The value stored in the `DictReader` row dictionary for a column that is
present in the header: the corresponding field, or `None` when the row is
shorter than the header. -/
def stored (h row : List String) (c : String) : Option String :=
  match lastIdx h c with
  | none => none
  | some i => row.get? i

/-- Model of `row.get(c, default)` on a `DictReader` row: the dictionary holds
every header column (with `None` for missing fields), so the default is
consulted only when the column is absent from the header. -/
def dictGet (h row : List String) (c : String) (default : Option String) : Option String :=
  if (lastIdx h c).isSome then stored h row c else default

/-- Source line 41: `row.get('title', f'Untitled Link {row_num}')`. -/
def rowTitle (h row : List String) (n : Nat) : Option String :=
  dictGet h row "title" (some s!"Untitled Link {n}")

/-- Source line 42: `row.get('url')`. -/
def rowUrl (h row : List String) : Option String :=
  dictGet h row "url" none

/-- Source line 43: `row.get('time_added')`. -/
def rowTime (h row : List String) : Option String :=
  dictGet h row "time_added" none

/-- Source line 44: `row.get('tags', '')`. -/
def rowTags (h row : List String) : Option String :=
  dictGet h row "tags" (some "")

/-- Mutable run state: output file content (as the list of written lines),
console output, and the two counters of the source (lines 17 and 18). -/
structure ConvState where
  output : List String
  printed : List String
  added : Nat
  skipped : Nat
deriving DecidableEq, Repr

/-- Fixed prefix of every bookmark line the converter writes. -/
def anchorPre : String := "    <DT><A HREF=\x22"

/-- One bookmark line (source lines 70 to 73): the three `htmlfile.write`
calls concatenated. The `TAGS` attribute is included only when the escaped
tags text is non-empty, mirroring `if escaped_tags:`. -/
def bookmarkChunk (escUrl attr escTags escTitle : String) : String :=
  anchorPre ++ escUrl ++ "\x22" ++ attr ++
    (if escTags = "" then "" else " TAGS=\x22" ++ escTags ++ "\x22") ++
    ">" ++ escTitle ++ "</A>\n"

/-- The `ADD_DATE` attribute text (source line 64). -/
def addDateAttr (v : Int) : String := " ADD_DATE=\x22" ++ toString v ++ "\x22"

/-- The escaped tags text of a row (source line 58). -/
def rowEscTags (h row : List String) : String :=
  if pyTruthy (rowTags h row) then htmlEscape (pyStr (rowTags h row)) else ""

/-- The `ADD_DATE` attribute a row ends up with (source lines 60 to 66):
empty when `time_added` is falsy or when `int(float(...))` raises
`ValueError`. -/
def rowAddDate (h row : List String) : String :=
  if pyTruthy (rowTime h row) then
    match pyIntFloat (pyStr (rowTime h row)) with
    | .ok v => addDateAttr v
    | .error _ => ""
  else ""

/-- The bookmark line written for a row that reaches the write calls. -/
def rowChunk (h : List String) (n : Nat) (row : List String) : String :=
  bookmarkChunk (htmlEscape (pyStr (rowUrl h row))) (rowAddDate h row)
    (rowEscTags h row) (htmlEscape (pyStr (rowTitle h row n)))

/-- Warning printed when a row has no URL (source line 48). -/
def skipWarnMsg (n : Nat) (title : Option String) : String :=
  let tp := pyStr title
  s!"Warning: Skipping row {n} due to missing URL. Title: \x27{tp}\x27"

/-- Warning printed when `int(float(time_added))` raises `ValueError`
(source line 66). -/
def badTimeMsg (t tstr : String) : String :=
  s!"Warning: Invalid time_added format for \x27{t}\x27: {tstr}. Skipping ADD_DATE."

/-- Append one bookmark line and bump the added counter (lines 70 to 74). -/
def emit (st : ConvState) (c : String) : ConvState :=
  { st with output := st.output ++ [c], added := st.added + 1 }

/-- Body of the `for` loop (source lines 40 to 74) for one data row.
The row is processed in source order: the URL truthiness test comes first, so
a missing URL is always a skip; on the emit path, `html.escape(title)` raises
`AttributeError` when the stored title is `None` (a row shorter than the
header), and an infinite `time_added` makes `int()` raise `OverflowError`,
which the inner `except ValueError` does not catch. Exceptions are raised
before any write or print of the row, so the state is returned unchanged
through `Except.error`. -/
def processRow (h : List String) (n : Nat) (row : List String) (st : ConvState) :
    Except PyExn ConvState :=
  if pyTruthy (rowUrl h row) then
    match rowTitle h row n with
    | none => .error .attributeError
    | some t =>
      if pyTruthy (rowTime h row) then
        match pyIntFloat (pyStr (rowTime h row)) with
        | .ok _ => .ok (emit st (rowChunk h n row))
        | .error .valueError =>
          .ok (emit
            { st with printed := st.printed ++ [badTimeMsg t (pyStr (rowTime h row))] }
            (rowChunk h n row))
        | .error e => .error e
      else .ok (emit st (rowChunk h n row))
  else
    .ok { st with
      printed := st.printed ++ [skipWarnMsg n (rowTitle h row n)],
      skipped := st.skipped + 1 }

/-- The `for row_num, row in enumerate(reader, 1)` loop. On an uncaught
exception the loop stops and the state reached so far is kept (the output
file keeps what was already written). -/
def processRows (h : List String) : Nat → List (List String) → ConvState →
    ConvState × Option PyExn
  | _, [], st => (st, none)
  | n, r :: rs, st =>
    match processRow h n r st with
    | .ok st2 => processRows h (n + 1) rs st2
    | .error e => (st, some e)

/-- The fixed document header block (source lines 25 to 32). -/
def headerChunks : List String :=
  ["<!DOCTYPE NETSCAPE-Bookmark-file-1>\n",
   "<!--This is an automatically generated file.\n",
   "It will be read and overwritten.\n",
   "Do Not Edit! -->\n",
   "<META HTTP-EQUIV=\x22Content-Type\x22 CONTENT=\x22text/html; charset=UTF-8\x22>\n",
   "<TITLE>Bookmarks</TITLE>\n",
   "<H1>Bookmarks</H1>\n",
   "<DL><p>\n"]

/-- The closing list tag (source line 77). -/
def footerChunk : String := "</DL><p>\n"

/-- The required columns checked on source line 35. -/
def requiredCols : List String := ["title", "url", "time_added", "tags"]

/-- First schema-error message (source line 36). -/
def schemaErrMsg : String :=
  "Error: CSV file is missing one or more required columns: \x27title\x27, \x27url\x27, \x27time_added\x27, \x27tags\x27."

/-- Python list repr of the header, as printed by source line 37. String
repr niceties (quote switching, escapes) are not modelled. -/
def pyListRepr (l : List String) : String :=
  "[" ++ String.intercalate ", " (l.map (fun s => "\x27" ++ s ++ "\x27")) ++ "]"

/-- Second schema-error message (source line 37). -/
def foundColsMsg (fieldnames : List String) : String :=
  "Found columns: " ++ pyListRepr fieldnames

/-- The success-report line (source line 79, typo included). -/
def successLine (k : Nat) : String := s!"\nSuccessfully coverted {k} bookmarks."

/-- The skipped-items line (source line 81). -/
def skippedLine (k : Nat) : String := s!"Skipped {k} items due to missing URLs."

/-- The output-path line (source line 82). -/
def savedLine (htmlPath : String) : String := s!"Output HTML file saved to: {htmlPath}"

/-- The three post-run report prints (source lines 79 to 82); the skipped
line appears only when the counter is positive. -/
def successMsgs (added skipped : Nat) (htmlPath : String) : List String :=
  [successLine added] ++ (if skipped > 0 then [skippedLine skipped] else []) ++
    [savedLine htmlPath]

/-- State after the `with` block, plus the exception escaping it, if any. -/
structure BodyOut where
  st : ConvState
  exn : Option PyExn
deriving DecidableEq, Repr

/-- State right after the header block is written. -/
def initState : ConvState := ⟨headerChunks, [], 0, 0⟩

/-- The `try` body (source lines 20 to 82). `inputFile` is `none` when the
input path cannot be opened (`FileNotFoundError`); `outErr` carries the
exception raised by opening the output path, if any. An empty input makes
`reader.fieldnames` `None` and the `col in None` test on line 35 raise
`TypeError`. A schema failure `return`s after the header block, so the footer
is never written. Blank records are skipped by `DictReader` when yielding
data rows. -/
def runBody (htmlPath : String) (inputFile : Option (List (List String)))
    (outErr : Option PyExn) : BodyOut :=
  match inputFile with
  | none => ⟨⟨[], [], 0, 0⟩, some .fileNotFound⟩
  | some records =>
    match outErr with
    | some e => ⟨⟨[], [], 0, 0⟩, some e⟩
    | none =>
      match records with
      | [] => ⟨⟨headerChunks, [], 0, 0⟩, some .typeError⟩
      | fieldnames :: raw =>
        if requiredCols.all (fun c => fieldnames.contains c) then
          let rows := raw.filter (fun r => !r.isEmpty)
          match processRows fieldnames 1 rows initState with
          | (st, some e) => ⟨st, some e⟩
          | (st, none) =>
            ⟨⟨st.output ++ [footerChunk],
              st.printed ++ successMsgs st.added st.skipped htmlPath,
              st.added, st.skipped⟩, none⟩
        else
          ⟨⟨headerChunks, [schemaErrMsg, foundColsMsg fieldnames], 0, 0⟩, none⟩

/-- Message of the `except FileNotFoundError` handler (source line 85). -/
def fnfMsg (csvPath : String) : String :=
  "Error: The file \x27" ++ csvPath ++ "\x27 was not found."

/-- Representative `str(e)` text for each modelled exception, as interpolated
by the catch-all handler (source line 87). -/
def excMsg : PyExn → String
  | .typeError => "argument of type \x27NoneType\x27 is not iterable"
  | .overflowError => "cannot convert float infinity to integer"
  | .attributeError => "\x27NoneType\x27 object has no attribute \x27replace\x27"
  | .valueError => "could not convert string to float"
  | .osError => "os error"
  | .fileNotFound => "file not found"

/-- Message of the `except Exception` handler (source line 87). -/
def unexpectedMsg (e : PyExn) : String :=
  "An unexpected error occurred: " ++ excMsg e

/-- What the handler of source lines 84 to 87 prints for an exception. -/
def handlerLine (csvPath : String) : PyExn → String
  | .fileNotFound => fnfMsg csvPath
  | e => unexpectedMsg e

/-- The whole function `convert_pocket_csv_to_html_bookmarks` (source lines
6 to 87): the `try` body wrapped in the two `except` clauses. Every exception
is consumed here; the function always returns normally. -/
def convert (csvPath htmlPath : String) (inputFile : Option (List (List String)))
    (outErr : Option PyExn) : ConvState :=
  let b := runBody htmlPath inputFile outErr
  match b.exn with
  | none => b.st
  | some e => { b.st with printed := b.st.printed ++ [handlerLine csvPath e] }

/-- Ambient run-dependent interpreter state (wall clock, PRNG seed). The
source imports `time` but never reads the clock, and uses no randomness. -/
structure RunEnv where
  clockNow : Int
  randomSeed : Nat

/-- The converter run inside an ambient environment; the body never consults
the environment, exactly as the source never does. -/
def convertInEnv (_env : RunEnv) (csvPath htmlPath : String)
    (inputFile : Option (List (List String))) (outErr : Option PyExn) : ConvState :=
  convert csvPath htmlPath inputFile outErr

/-- A written line is an anchor (bookmark) line when it starts with the fixed
anchor text. -/
def isAnchorChunk (s : String) : Bool := List.isPrefixOf anchorPre.data s.data

/-- Number of anchor lines among the written lines. -/
def countAnchors (out : List String) : Nat := (out.filter isAnchorChunk).length

/-- A data row passes the URL test of source line 47. -/
def urlOk (h : List String) (row : List String) : Bool := pyTruthy (rowUrl h row)

/-- Number of data rows with a truthy (non-empty, non-None) url field. -/
def countUrlOk (h : List String) (rows : List (List String)) : Nat :=
  (rows.filter (fun r => urlOk h r)).length

/-- The bookmark lines an exception-free run emits for the given rows,
starting at the given 1-based row number: one line per row with a truthy url,
in row order. -/
def emittedChunks (h : List String) : Nat → List (List String) → List String
  | _, [] => []
  | n, r :: rs =>
    if urlOk h r then rowChunk h n r :: emittedChunks h (n + 1) rs
    else emittedChunks h (n + 1) rs

/-- The run reported k added bookmarks on its console. -/
def reportsAdded (r : ConvState) (k : Nat) : Prop := successLine k ∈ r.printed

/-- The five characters `html.escape` rewrites. -/
def rawSpecials : List Char := ['&', '<', '>', quotChar, aposChar]

/-- The five entity texts `html.escape` produces. -/
def entities : List String := ["&amp;", "&lt;", "&gt;", "&quot;", "&#x27;"]

/-- Character lists in which every special character occurs only as part of a
complete escape entity: the shape of `html.escape` output. -/
inductive EscSafe : List Char → Prop
  | nil : EscSafe []
  | plain {c : Char} {l : List Char} : c ∉ rawSpecials → EscSafe l → EscSafe (c :: l)
  | ent {e : String} {l : List Char} : e ∈ entities → EscSafe l → EscSafe (e.data ++ l)

end Pocket

namespace Pocket

/-! Helper lemmas. -/

theorem strDataAppend (a b : String) : (a ++ b).data = a.data ++ b.data := rfl

theorem isPrefixOfAppendSelf : ∀ (l t : List Char), List.isPrefixOf l (l ++ t) = true := by
  intro l t
  induction l with
  | nil => simp [List.isPrefixOf]
  | cons a as ih => simp [List.isPrefixOf, ih]

theorem isAnchor_bookmarkChunk (escUrl attr escTags escTitle : String) :
    isAnchorChunk (bookmarkChunk escUrl attr escTags escTitle) = true := by
  unfold isAnchorChunk bookmarkChunk
  simp only [strDataAppend, List.append_assoc]
  exact isPrefixOfAppendSelf _ _

theorem isAnchor_rowChunk (h : List String) (n : Nat) (row : List String) :
    isAnchorChunk (rowChunk h n row) = true := by
  unfold rowChunk
  exact isAnchor_bookmarkChunk _ _ _ _

theorem countAnchors_append (l m : List String) :
    countAnchors (l ++ m) = countAnchors l + countAnchors m := by
  simp [countAnchors, List.filter_append]

theorem countAnchors_header : countAnchors headerChunks = 0 := by decide

theorem countAnchors_footer : countAnchors [footerChunk] = 0 := by decide

end Pocket

namespace Pocket

/-- What one loop iteration does to the counters and the output file when it
returns normally: either the row is written (one anchor line, added counter
bumped) or it is skipped (skip counter bumped, nothing written). -/
theorem processRow_ok_cases (h : List String) (n : Nat) (row : List String)
    (st st2 : ConvState) (hp : processRow h n row st = .ok st2) :
    (urlOk h row = true ∧ st2.output = st.output ++ [rowChunk h n row] ∧
      st2.added = st.added + 1 ∧ st2.skipped = st.skipped) ∨
    (urlOk h row = false ∧ st2.output = st.output ∧
      st2.added = st.added ∧ st2.skipped = st.skipped + 1) := by
  unfold processRow at hp
  split at hp
  · rename_i hurl
    left
    refine ⟨by simpa [urlOk] using hurl, ?_⟩
    split at hp
    · exact absurd hp (by simp)
    · split at hp
      · split at hp
        · cases hp; simp [emit]
        · cases hp; simp [emit]
        · exact absurd hp (by simp)
      · cases hp; simp [emit]
  · rename_i hurl
    right
    cases hp
    refine ⟨?_, rfl, rfl, rfl⟩
    simpa [urlOk] using hurl

end Pocket

namespace Pocket

/-- An exception-free pass over the data rows appends exactly the bookmark
lines of the url-carrying rows, adds one to the added counter per such row,
and accounts every row either as added or as skipped. -/
theorem processRows_ok_spec (h : List String) :
    ∀ (rows : List (List String)) (n : Nat) (st : ConvState),
      (processRows h n rows st).2 = none →
      (processRows h n rows st).1.output = st.output ++ emittedChunks h n rows ∧
      (processRows h n rows st).1.added = st.added + countUrlOk h rows ∧
      (processRows h n rows st).1.added + (processRows h n rows st).1.skipped
        = st.added + st.skipped + rows.length := by
  intro rows
  induction rows with
  | nil => intro n st _; simp [processRows, emittedChunks, countUrlOk]
  | cons r rs ih =>
    intro n st hnone
    cases hpr : processRow h n r st with
    | error e => rw [processRows, hpr] at hnone; cases hnone
    | ok st2 =>
      have hrec : processRows h n (r :: rs) st = processRows h (n + 1) rs st2 := by
        rw [processRows, hpr]
      rw [hrec] at hnone ⊢
      obtain ⟨ho, ha, hk⟩ := ih (n + 1) st2 hnone
      rcases processRow_ok_cases h n r st st2 hpr with
        ⟨hu, ho2, ha2, hk2⟩ | ⟨hu, ho2, ha2, hk2⟩
      · have hcu : countUrlOk h (r :: rs) = countUrlOk h rs + 1 := by
          simp [countUrlOk, List.filter_cons, hu]
        have hec : emittedChunks h n (r :: rs)
            = rowChunk h n r :: emittedChunks h (n + 1) rs := by
          simp [emittedChunks, hu]
        refine ⟨?_, ?_, ?_⟩
        · rw [ho, ho2, hec]; simp
        · rw [ha, ha2, hcu]; omega
        · have hlen : (r :: rs).length = rs.length + 1 := rfl
          omega
      · have hcu : countUrlOk h (r :: rs) = countUrlOk h rs := by
          simp [countUrlOk, List.filter_cons, hu]
        have hec : emittedChunks h n (r :: rs) = emittedChunks h (n + 1) rs := by
          simp [emittedChunks, hu]
        refine ⟨?_, ?_, ?_⟩
        · rw [ho, ho2, hec]
        · rw [ha, ha2, hcu]
        · have hlen : (r :: rs).length = rs.length + 1 := rfl
          omega

/-- Loop invariant behind claim C10: if the added counter equals the number
of anchor lines written so far, it still does after processing any further
rows, whether or not the pass ends in an exception. -/
theorem processRows_anchor_inv (h : List String) :
    ∀ (rows : List (List String)) (n : Nat) (st : ConvState),
      st.added = countAnchors st.output →
      (processRows h n rows st).1.added
        = countAnchors (processRows h n rows st).1.output := by
  intro rows
  induction rows with
  | nil => intro n st hst; simpa [processRows] using hst
  | cons r rs ih =>
    intro n st hst
    cases hpr : processRow h n r st with
    | error e => rw [processRows, hpr]; exact hst
    | ok st2 =>
      have hrec : processRows h n (r :: rs) st = processRows h (n + 1) rs st2 := by
        rw [processRows, hpr]
      rw [hrec]
      apply ih
      rcases processRow_ok_cases h n r st st2 hpr with
        ⟨hu, ho2, ha2, _⟩ | ⟨hu, ho2, ha2, _⟩
      · rw [ha2, ho2, countAnchors_append, hst]
        simp [countAnchors, List.filter, isAnchor_rowChunk]
      · rw [ha2, ho2]; exact hst

/-- Every line an exception-free pass emits is an anchor line. -/
theorem emittedChunks_filter (h : List String) :
    ∀ (rows : List (List String)) (n : Nat),
      (emittedChunks h n rows).filter isAnchorChunk = emittedChunks h n rows := by
  intro rows
  induction rows with
  | nil => intro n; simp [emittedChunks]
  | cons r rs ih =>
    intro n
    by_cases hu : urlOk h r
    · simp [emittedChunks, hu, List.filter_cons, isAnchor_rowChunk, ih]
    · simp only [Bool.not_eq_true] at hu
      simp [emittedChunks, hu, ih]

/-- A column name that occurs in the header has a last occurrence. -/
theorem lastIdx_isSome_of_mem {h : List String} {c : String} (hc : c ∈ h) :
    (lastIdx h c).isSome = true := by
  induction h with
  | nil => cases hc
  | cons a t ih =>
    rcases List.mem_cons.mp hc with rfl | hmem
    · cases hl : lastIdx t c with
      | some i => simp [lastIdx, hl]
      | none => simp [lastIdx, hl]
    · have hs := ih hmem
      cases hl : lastIdx t c with
      | some i => simp [lastIdx, hl]
      | none => rw [hl] at hs; cases hs

end Pocket

namespace Pocket

/-- No escaped character image contains a raw angle bracket or quote. -/
theorem escChar_noRaw (a c : Char)
    (hc : c = '<' ∨ c = '>' ∨ c = quotChar ∨ c = aposChar) :
    c ∉ (escChar a).data := by
  unfold escChar
  split_ifs with h1 h2 h3 h4 h5
  · rcases hc with rfl | rfl | rfl | rfl <;> decide
  · rcases hc with rfl | rfl | rfl | rfl <;> decide
  · rcases hc with rfl | rfl | rfl | rfl <;> decide
  · rcases hc with rfl | rfl | rfl | rfl <;> decide
  · rcases hc with rfl | rfl | rfl | rfl <;> decide
  · have hs : (String.singleton a).data = [a] := rfl
    rw [hs]
    simp only [List.mem_singleton]
    intro heq
    subst heq
    rcases hc with rfl | rfl | rfl | rfl
    · exact h2 rfl
    · exact h3 rfl
    · exact h4 rfl
    · exact h5 rfl

/-- Escaped text never contains a raw angle bracket or quote character. -/
theorem escList_noRaw (l : List Char) (c : Char)
    (hc : c = '<' ∨ c = '>' ∨ c = quotChar ∨ c = aposChar) :
    c ∉ escList l := by
  induction l with
  | nil => simp [escList]
  | cons a t ih =>
    simp only [escList, List.mem_append, not_or]
    exact ⟨escChar_noRaw a c hc, ih⟩

/-- Escaped text consists only of safe characters and complete entities. -/
theorem escList_safe (l : List Char) : EscSafe (escList l) := by
  induction l with
  | nil => exact EscSafe.nil
  | cons a t ih =>
    show EscSafe ((escChar a).data ++ escList t)
    unfold escChar
    split_ifs with h1 h2 h3 h4 h5
    · exact EscSafe.ent (e := "&amp;") (by decide) ih
    · exact EscSafe.ent (e := "&lt;") (by decide) ih
    · exact EscSafe.ent (e := "&gt;") (by decide) ih
    · exact EscSafe.ent (e := "&quot;") (by decide) ih
    · exact EscSafe.ent (e := "&#x27;") (by decide) ih
    · have hs : (String.singleton a).data = [a] := rfl
      rw [hs]
      refine EscSafe.plain ?_ ih
      simp only [rawSpecials, List.mem_cons, List.mem_singleton, not_or]
      exact ⟨h1, h2, h3, h4, by simpa using h5⟩

end Pocket

namespace Pocket

/-- Shape of a run in which the header is valid and the row loop finishes
without an exception: footer appended, report printed, nothing caught. -/
theorem convert_success (csvPath htmlPath : String) (fieldnames : List String)
    (raw : List (List String))
    (hcols : requiredCols.all (fun c => fieldnames.contains c) = true)
    (hok : (processRows fieldnames 1 (raw.filter (fun r => !r.isEmpty)) initState).2 = none) :
    convert csvPath htmlPath (some (fieldnames :: raw)) none
      = ⟨(processRows fieldnames 1 (raw.filter (fun r => !r.isEmpty)) initState).1.output
            ++ [footerChunk],
         (processRows fieldnames 1 (raw.filter (fun r => !r.isEmpty)) initState).1.printed
            ++ successMsgs
                (processRows fieldnames 1 (raw.filter (fun r => !r.isEmpty)) initState).1.added
                (processRows fieldnames 1 (raw.filter (fun r => !r.isEmpty)) initState).1.skipped
                htmlPath,
         (processRows fieldnames 1 (raw.filter (fun r => !r.isEmpty)) initState).1.added,
         (processRows fieldnames 1 (raw.filter (fun r => !r.isEmpty)) initState).1.skipped⟩ := by
  have hp2 : processRows fieldnames 1 (raw.filter (fun r => !r.isEmpty)) initState
      = ((processRows fieldnames 1 (raw.filter (fun r => !r.isEmpty)) initState).1, none) := by
    rw [← hok]
  have hrb : runBody htmlPath (some (fieldnames :: raw)) none
      = ⟨⟨(processRows fieldnames 1 (raw.filter (fun r => !r.isEmpty)) initState).1.output
            ++ [footerChunk],
          (processRows fieldnames 1 (raw.filter (fun r => !r.isEmpty)) initState).1.printed
            ++ successMsgs
                (processRows fieldnames 1 (raw.filter (fun r => !r.isEmpty)) initState).1.added
                (processRows fieldnames 1 (raw.filter (fun r => !r.isEmpty)) initState).1.skipped
                htmlPath,
          (processRows fieldnames 1 (raw.filter (fun r => !r.isEmpty)) initState).1.added,
          (processRows fieldnames 1 (raw.filter (fun r => !r.isEmpty)) initState).1.skipped⟩,
        none⟩ := by
    simp only [runBody]
    rw [if_pos hcols, hp2]
  simp only [convert, hrb]

/-- Shape of a run whose body raises: the handler of source lines 84 to 87
prints one message and the function still returns normally. -/
theorem convert_of_exn (csvPath htmlPath : String)
    (inp : Option (List (List String))) (oe : Option PyExn) (e : PyExn)
    (hexn : (runBody htmlPath inp oe).exn = some e) :
    convert csvPath htmlPath inp oe
      = { (runBody htmlPath inp oe).st with
            printed := (runBody htmlPath inp oe).st.printed ++ [handlerLine csvPath e] } := by
  simp only [convert, hexn]

end Pocket

namespace Pocket

/-! Claim theorems. -/

/-- C1, counterexample to the claim as stated: this CSV has the full required
header, one data row (N = 1) with a non-empty url (M = 1), yet `convert`
reports no added or skipped count at all — the only console line is the
catch-all error message (the row's `time_added` is `inf`, see C2 and C4), and
no bookmark line is emitted. So it is not true that for every CSV with the
required header `convert` reports `added + skippedMissingUrl == N` and
`added == M`. -/
theorem c1_claim_counterexample :
    (requiredCols.all (fun c =>
        (["title", "url", "time_added", "tags"] : List String).contains c) = true) ∧
    (convert "c1.csv" "c1.html"
        (some [["title", "url", "time_added", "tags"],
               ["Only", "http://only.example/", "inf", ""]]) none).printed
      = [unexpectedMsg PyExn.overflowError] ∧
    countAnchors (convert "c1.csv" "c1.html"
        (some [["title", "url", "time_added", "tags"],
               ["Only", "http://only.example/", "inf", ""]]) none).output = 0 :=
  ⟨rfl, rfl, rfl⟩

/-- C1 (amended): for every CSV input whose header contains the required
columns and whose row loop completes without an exception, the run reports
the added count, `added == M` (the number of data rows with a non-empty url),
`added + skipped == N` (the number of data rows), and the output is exactly
the header block, one bookmark line per url-carrying data row in order, and
the footer — so every emitted bookmark line corresponds to exactly one input
row with a non-empty url field. -/
theorem c1_roundtrip_amended (csvPath htmlPath : String) (fieldnames : List String)
    (raw : List (List String))
    (hcols : requiredCols.all (fun c => fieldnames.contains c) = true)
    (hok : (processRows fieldnames 1 (raw.filter (fun r => !r.isEmpty)) initState).2 = none) :
    (convert csvPath htmlPath (some (fieldnames :: raw)) none).added
        = countUrlOk fieldnames (raw.filter (fun r => !r.isEmpty)) ∧
    (convert csvPath htmlPath (some (fieldnames :: raw)) none).added
        + (convert csvPath htmlPath (some (fieldnames :: raw)) none).skipped
        = (raw.filter (fun r => !r.isEmpty)).length ∧
    reportsAdded (convert csvPath htmlPath (some (fieldnames :: raw)) none)
        (convert csvPath htmlPath (some (fieldnames :: raw)) none).added ∧
    (convert csvPath htmlPath (some (fieldnames :: raw)) none).output
        = headerChunks ++ emittedChunks fieldnames 1 (raw.filter (fun r => !r.isEmpty))
            ++ [footerChunk] ∧
    (convert csvPath htmlPath (some (fieldnames :: raw)) none).output.filter isAnchorChunk
        = emittedChunks fieldnames 1 (raw.filter (fun r => !r.isEmpty)) := by
  obtain ⟨ho, ha, hk⟩ :=
    processRows_ok_spec fieldnames (raw.filter (fun r => !r.isEmpty)) 1 initState hok
  have hc := convert_success csvPath htmlPath fieldnames raw hcols hok
  rw [hc]
  have hinit_out : initState.output = headerChunks := rfl
  have hinit_add : initState.added = 0 := rfl
  have hinit_skip : initState.skipped = 0 := rfl
  refine ⟨?_, ?_, ?_, ?_, ?_⟩
  · show (processRows fieldnames 1 (raw.filter (fun r => !r.isEmpty)) initState).1.added
      = countUrlOk fieldnames (raw.filter (fun r => !r.isEmpty))
    rw [ha, hinit_add]
    omega
  · show (processRows fieldnames 1 (raw.filter (fun r => !r.isEmpty)) initState).1.added
        + (processRows fieldnames 1 (raw.filter (fun r => !r.isEmpty)) initState).1.skipped
      = (raw.filter (fun r => !r.isEmpty)).length
    rw [hinit_add, hinit_skip] at hk
    omega
  · show successLine (processRows fieldnames 1 (raw.filter (fun r => !r.isEmpty)) initState).1.added
      ∈ (processRows fieldnames 1 (raw.filter (fun r => !r.isEmpty)) initState).1.printed
        ++ successMsgs
            (processRows fieldnames 1 (raw.filter (fun r => !r.isEmpty)) initState).1.added
            (processRows fieldnames 1 (raw.filter (fun r => !r.isEmpty)) initState).1.skipped
            htmlPath
    simp [successMsgs]
  · show (processRows fieldnames 1 (raw.filter (fun r => !r.isEmpty)) initState).1.output
        ++ [footerChunk]
      = headerChunks ++ emittedChunks fieldnames 1 (raw.filter (fun r => !r.isEmpty))
          ++ [footerChunk]
    rw [ho, hinit_out]
  · show ((processRows fieldnames 1 (raw.filter (fun r => !r.isEmpty)) initState).1.output
        ++ [footerChunk]).filter isAnchorChunk
      = emittedChunks fieldnames 1 (raw.filter (fun r => !r.isEmpty))
    have hhead : headerChunks.filter isAnchorChunk = [] := rfl
    have hfoot : [footerChunk].filter isAnchorChunk = [] := rfl
    rw [ho, hinit_out, List.filter_append, List.filter_append, hhead, hfoot,
      emittedChunks_filter]
    simp

/-- C1 witness: a three-row CSV (two rows with a url, one without) run
through the amended round-trip theorem. -/
theorem c1_roundtrip_witness :
    (requiredCols.all (fun c =>
        (["title", "url", "time_added", "tags"] : List String).contains c) = true) ∧
    ((processRows ["title", "url", "time_added", "tags"] 1
        (([["A", "http://a.example/", "1700000000", ""],
           ["B", "", "", ""],
           ["C", "http://c.example/", "", "t1,t2"]] : List (List String)).filter
          (fun r => !r.isEmpty)) initState).2 = none) ∧
    (convert "w1.csv" "w1.html"
        (some (["title", "url", "time_added", "tags"] ::
          [["A", "http://a.example/", "1700000000", ""],
           ["B", "", "", ""],
           ["C", "http://c.example/", "", "t1,t2"]])) none).added
      = countUrlOk ["title", "url", "time_added", "tags"]
          (([["A", "http://a.example/", "1700000000", ""],
             ["B", "", "", ""],
             ["C", "http://c.example/", "", "t1,t2"]] : List (List String)).filter
            (fun r => !r.isEmpty)) :=
  ⟨rfl, rfl,
    (c1_roundtrip_amended "w1.csv" "w1.html" ["title", "url", "time_added", "tags"]
      [["A", "http://a.example/", "1700000000", ""],
       ["B", "", "", ""],
       ["C", "http://c.example/", "", "t1,t2"]] rfl rfl).1⟩

end Pocket

namespace Pocket

/-- C2, code bug at the failing input `time_added = "inf"`: the claim (and
the spec) promise that a present-but-unparsable `time_added` still emits the
row, just without `ADD_DATE` and with a warning. But `float("inf")` succeeds
and `int()` of it raises `OverflowError`, which the inner
`except ValueError` (source line 65) does not catch: the whole run aborts
through the catch-all handler — no warning is printed, the row is not
emitted, and nothing is reported. This theorem evaluates the model at that
input. -/
theorem c2_inf_timestamp_fatal :
    pyIntFloat "inf" = Except.error PyExn.overflowError ∧
    convert "pocket.csv" "bookmarks.html"
        (some [["title", "url", "time_added", "tags"],
               ["Inf Row", "http://inf.example/", "inf", ""]]) none
      = ⟨headerChunks, [unexpectedMsg PyExn.overflowError], 0, 0⟩ :=
  ⟨rfl, rfl⟩

/-- C3, counterexample to the claim as stated: a data row whose title field
is empty keeps the empty title — the emitted anchor has empty text, not the
placeholder `Untitled Link 1`. The `row.get('title', ...)` default never
fires because `DictReader` rows always carry every validated header column. -/
theorem c3_claim_counterexample :
    convert "c3.csv" "c3.html"
        (some [["title", "url", "time_added", "tags"],
               ["", "http://empty-title.example/", "", ""]]) none
      = ⟨headerChunks ++
           ["    <DT><A HREF=\x22http://empty-title.example/\x22></A>\n", footerChunk],
         [successLine 1, savedLine "c3.html"], 1, 0⟩ ∧
    rowTitle ["title", "url", "time_added", "tags"]
        ["", "http://empty-title.example/", "", ""] 1 = some "" :=
  ⟨rfl, rfl⟩

/-- C3 (amended): the synthesized placeholder `Untitled Link {row_number}`
would be used only if the `title` key were absent from the row mapping; as
soon as `title` occurs in the header, the title used for the row is exactly
the stored field value — in particular an empty title stays the empty
string. -/
theorem c3_title_passthrough (h row : List String) (n : Nat) (hmem : "title" ∈ h) :
    rowTitle h row n = stored h row "title" := by
  unfold rowTitle dictGet
  rw [if_pos (lastIdx_isSome_of_mem hmem)]

/-- C3 witness: a one-field row under the required header; the title used is
the stored empty string, not the placeholder. -/
theorem c3_title_witness :
    ("title" ∈ (["title", "url", "time_added", "tags"] : List String)) ∧
    rowTitle ["title", "url", "time_added", "tags"] [""] 7
      = stored ["title", "url", "time_added", "tags"] [""] "title" ∧
    stored ["title", "url", "time_added", "tags"] [""] "title" = some "" :=
  ⟨by decide,
   c3_title_passthrough ["title", "url", "time_added", "tags"] [""] 7 (by decide),
   rfl⟩

/-- C4, code bug at the failing input `time_added = "inf"`: the claim (with
the spec's RowDegraded taxonomy) says a malformed timestamp is strictly
per-row — warn, emit without the date, continue. But for a value that parses
to an infinite float, `int()` raises `OverflowError`, which escapes the
per-row `except ValueError` and aborts the entire run: the first row gets no
warning and no line, and the perfectly valid second row is never processed. -/
theorem c4_overflow_aborts_run :
    convert "pocket2.csv" "bookmarks2.html"
        (some [["title", "url", "time_added", "tags"],
               ["First", "http://one.example/", "inf", ""],
               ["Second", "http://two.example/", "1700000000", ""]]) none
      = ⟨headerChunks, [unexpectedMsg PyExn.overflowError], 0, 0⟩ :=
  rfl

/-- C5, counterexample to the claim as stated: on an unreadable input the
function does not raise `IOError` to its caller — the `FileNotFoundError`
raised by `open` is consumed by its own `except` clause (source line 84), a
message is printed, and `convert` returns a normal result. -/
theorem c5_claim_counterexample :
    convert "nofile.csv" "nofile.html" none none
      = ⟨[], [fnfMsg "nofile.csv"], 0, 0⟩ ∧
    (runBody "nofile.html" none none).exn = some PyExn.fileNotFound :=
  ⟨rfl, rfl⟩

/-- C5 (amended): when the input file is unreadable, or the output path
cannot be created, an `IOError`-family exception is raised internally by
`open`, but `convert` catches it itself: it prints the file-not-found or
unexpected-error message and returns normally; nothing propagates to the
caller. -/
theorem c5_io_amended (csvPath htmlPath : String) (oe : Option PyExn) :
    (convert csvPath htmlPath none oe = ⟨[], [fnfMsg csvPath], 0, 0⟩) ∧
    (∀ (records : List (List String)) (e : PyExn), e ≠ PyExn.fileNotFound →
      convert csvPath htmlPath (some records) (some e)
        = ⟨[], [unexpectedMsg e], 0, 0⟩) ∧
    (∀ records : List (List String),
      convert csvPath htmlPath (some records) (some PyExn.fileNotFound)
        = ⟨[], [fnfMsg csvPath], 0, 0⟩) := by
  refine ⟨rfl, ?_, ?_⟩
  · intro records e he
    cases e with
    | fileNotFound => exact absurd rfl he
    | typeError => rfl
    | valueError => rfl
    | overflowError => rfl
    | attributeError => rfl
    | osError => rfl
  · intro records
    rfl

/-- C5 witness: a missing input file and a failing output open, both handled
without propagation. -/
theorem c5_io_witness :
    (convert "gone.csv" "gone.html" none none = ⟨[], [fnfMsg "gone.csv"], 0, 0⟩) ∧
    (convert "gone.csv" "gone.html" (some [["title"]]) (some PyExn.osError)
      = ⟨[], [unexpectedMsg PyExn.osError], 0, 0⟩) :=
  ⟨(c5_io_amended "gone.csv" "gone.html" none).1,
   (c5_io_amended "gone.csv" "gone.html" none).2.1 [["title"]] PyExn.osError (by decide)⟩

/-- C6: when the header row lacks a required column, the run aborts before
any per-row line: the output is exactly the static header block (the footer
is not even written), the two printed messages name the required columns
(hence every missing one) and the columns actually found, and no anchor line
exists in the output. -/
theorem c6_schema_abort (csvPath htmlPath : String) (fieldnames : List String)
    (raw : List (List String))
    (hmiss : requiredCols.all (fun c => fieldnames.contains c) = false) :
    convert csvPath htmlPath (some (fieldnames :: raw)) none
      = ⟨headerChunks, [schemaErrMsg, foundColsMsg fieldnames], 0, 0⟩ ∧
    countAnchors headerChunks = 0 := by
  have hrb : runBody htmlPath (some (fieldnames :: raw)) none
      = ⟨⟨headerChunks, [schemaErrMsg, foundColsMsg fieldnames], 0, 0⟩, none⟩ := by
    simp only [runBody]
    rw [if_neg (by rw [hmiss]; simp)]
  exact ⟨by simp only [convert, hrb], countAnchors_header⟩

/-- C6 witness: a CSV missing the `tags` column aborts with the schema
messages and only the framing in the output. -/
theorem c6_schema_witness :
    (requiredCols.all (fun c =>
        (["title", "url", "time_added"] : List String).contains c) = false) ∧
    (convert "c6.csv" "c6.html"
        (some [["title", "url", "time_added"], ["A", "http://a.example/", ""]]) none
      = ⟨headerChunks, [schemaErrMsg, foundColsMsg ["title", "url", "time_added"]], 0, 0⟩ ∧
    countAnchors headerChunks = 0) :=
  ⟨rfl,
   c6_schema_abort "c6.csv" "c6.html" ["title", "url", "time_added"]
     [["A", "http://a.example/", ""]] rfl⟩

end Pocket

namespace Pocket

/-- C7: title, tags and url are HTML-escaped before embedding. Escaped text
contains no raw `<`, `>`, double quote or apostrophe, and is built entirely
from safe characters and the five complete entities (so every `&` it contains
starts an entity); each of the five special characters maps to its entity,
the spec's sample title escapes as promised, and every bookmark line embeds
precisely the `htmlEscape` images of the row's url, tags and title. -/
theorem c7_escaping :
    (∀ s : String, EscSafe (htmlEscape s).data) ∧
    (∀ s : String, '<' ∉ (htmlEscape s).data ∧ '>' ∉ (htmlEscape s).data ∧
      quotChar ∉ (htmlEscape s).data ∧ aposChar ∉ (htmlEscape s).data) ∧
    (htmlEscape (String.mk ['&']) = "&amp;" ∧ htmlEscape (String.mk ['<']) = "&lt;" ∧
      htmlEscape (String.mk ['>']) = "&gt;" ∧ htmlEscape (String.mk [quotChar]) = "&quot;" ∧
      htmlEscape (String.mk [aposChar]) = "&#x27;") ∧
    (htmlEscape (String.mk ['<', 's', 'c', 'r', 'i', 'p', 't', '>', '&', quotChar, aposChar])
      = "&lt;script&gt;&amp;&quot;&#x27;") ∧
    (∀ (h : List String) (n : Nat) (row : List String),
      rowChunk h n row
        = bookmarkChunk (htmlEscape (pyStr (rowUrl h row))) (rowAddDate h row)
            (rowEscTags h row) (htmlEscape (pyStr (rowTitle h row n))) ∧
      (rowEscTags h row = "" ∨
        rowEscTags h row = htmlEscape (pyStr (rowTags h row)))) := by
  refine ⟨?_, ?_, ⟨rfl, rfl, rfl, rfl, rfl⟩, rfl, ?_⟩
  · intro s
    exact escList_safe s.data
  · intro s
    exact ⟨escList_noRaw s.data _ (Or.inl rfl),
      escList_noRaw s.data _ (Or.inr (Or.inl rfl)),
      escList_noRaw s.data _ (Or.inr (Or.inr (Or.inl rfl))),
      escList_noRaw s.data _ (Or.inr (Or.inr (Or.inr rfl)))⟩
  · intro h n row
    refine ⟨rfl, ?_⟩
    unfold rowEscTags
    by_cases htr : pyTruthy (rowTags h row) = true
    · rw [if_pos htr]
      exact Or.inr rfl
    · rw [if_neg htr]
      exact Or.inl rfl

/-- C8: the converter is deterministic. Run in any two ambient environments
(differing wall clock, differing PRNG seed), the same input file content
produces the same full result — in particular byte-identical output file
content. The source imports `time` but never consults it nor any other
run-dependent state. -/
theorem c8_deterministic (env1 env2 : RunEnv) (csvPath htmlPath : String)
    (inputFile : Option (List (List String))) (outErr : Option PyExn) :
    convertInEnv env1 csvPath htmlPath inputFile outErr
      = convertInEnv env2 csvPath htmlPath inputFile outErr ∧
    (convertInEnv env1 csvPath htmlPath inputFile outErr).output
      = (convertInEnv env2 csvPath htmlPath inputFile outErr).output :=
  ⟨rfl, rfl⟩

/-- C9: convert returns normally for every input. Whenever the body raises —
including `FileNotFoundError` for a missing input and the `TypeError` from an
empty input file (where `reader.fieldnames` is `None`) — the exception is
consumed by the two `except` clauses, turned into exactly one printed
handler message, and the function yields a normal result; the two named
scenarios are evaluated concretely. -/
theorem c9_no_propagation :
    (∀ (csvPath htmlPath : String) (inp : Option (List (List String)))
        (oe : Option PyExn) (e : PyExn),
      (runBody htmlPath inp oe).exn = some e →
      convert csvPath htmlPath inp oe
        = { (runBody htmlPath inp oe).st with
              printed := (runBody htmlPath inp oe).st.printed
                ++ [handlerLine csvPath e] }) ∧
    ((runBody "empty.html" (some []) none).exn = some PyExn.typeError) ∧
    (convert "empty.csv" "empty.html" (some []) none
      = ⟨headerChunks, [unexpectedMsg PyExn.typeError], 0, 0⟩) ∧
    ((runBody "absent.html" none none).exn = some PyExn.fileNotFound) ∧
    (convert "absent.csv" "absent.html" none none
      = ⟨[], [fnfMsg "absent.csv"], 0, 0⟩) := by
  refine ⟨?_, rfl, rfl, rfl, rfl⟩
  intro csvPath htmlPath inp oe e hexn
  exact convert_of_exn csvPath htmlPath inp oe e hexn

/-- C9 witness: the empty-input `TypeError` scenario pushed through the
catching theorem. -/
theorem c9_witness :
    ((runBody "w9.html" (some []) none).exn = some PyExn.typeError) ∧
    (convert "w9.csv" "w9.html" (some []) none
      = { (runBody "w9.html" (some []) none).st with
            printed := (runBody "w9.html" (some []) none).st.printed
              ++ [handlerLine "w9.csv" PyExn.typeError] }) :=
  ⟨rfl, c9_no_propagation.1 "w9.csv" "w9.html" (some []) none PyExn.typeError rfl⟩

/-- C10: at every point of the run the added counter equals the number of
anchor lines written so far (the invariant is preserved by processing any
list of further rows from any state satisfying it, with or without a final
exception), and on successful completion the reported added count equals the
number of anchor lines in the output file. -/
theorem c10_added_anchor_invariant :
    (∀ (h : List String) (rows : List (List String)) (n : Nat) (st : ConvState),
      st.added = countAnchors st.output →
      (processRows h n rows st).1.added
        = countAnchors (processRows h n rows st).1.output) ∧
    (∀ (csvPath htmlPath : String) (fieldnames : List String) (raw : List (List String)),
      requiredCols.all (fun c => fieldnames.contains c) = true →
      (processRows fieldnames 1 (raw.filter (fun r => !r.isEmpty)) initState).2 = none →
      reportsAdded (convert csvPath htmlPath (some (fieldnames :: raw)) none)
        (countAnchors (convert csvPath htmlPath (some (fieldnames :: raw)) none).output)) := by
  refine ⟨fun h => processRows_anchor_inv h, ?_⟩
  intro csvPath htmlPath fieldnames raw hcols hok
  have hc := convert_success csvPath htmlPath fieldnames raw hcols hok
  have hinv := processRows_anchor_inv fieldnames (raw.filter (fun r => !r.isEmpty)) 1
    initState rfl
  rw [hc]
  show successLine (countAnchors
      ((processRows fieldnames 1 (raw.filter (fun r => !r.isEmpty)) initState).1.output
        ++ [footerChunk]))
    ∈ (processRows fieldnames 1 (raw.filter (fun r => !r.isEmpty)) initState).1.printed
      ++ successMsgs
          (processRows fieldnames 1 (raw.filter (fun r => !r.isEmpty)) initState).1.added
          (processRows fieldnames 1 (raw.filter (fun r => !r.isEmpty)) initState).1.skipped
          htmlPath
  rw [countAnchors_append, countAnchors_footer, Nat.add_zero, ← hinv]
  simp [successMsgs]

/-- C10 witness: the invariant applied from the freshly written header block
across one concrete emitted row. -/
theorem c10_invariant_witness :
    (initState.added = countAnchors initState.output) ∧
    ((processRows ["title", "url", "time_added", "tags"] 1
        [["W", "http://w.example/", "", ""]] initState).1.added
      = countAnchors (processRows ["title", "url", "time_added", "tags"] 1
          [["W", "http://w.example/", "", ""]] initState).1.output) :=
  ⟨rfl,
   c10_added_anchor_invariant.1 ["title", "url", "time_added", "tags"]
     [["W", "http://w.example/", "", ""]] 1 initState rfl⟩

end Pocket
